import Mathlib

/-!
Shallow embedding of the risk decision engine (`decision_engine.py`).

The engine maps a transaction record to an additive risk score, a list of
reason strings, and a decision (ACCEPTED / IN_REVIEW / REJECTED), with a
pre-empting hard-block check. Python dictionaries are modelled as
association lists with defaulting lookup, Python strings as `String`,
amounts (Python floats) as `Rat`, and the Python `TypeError` that would be
raised when both the product type and the `"_default"` amount-threshold key
are absent is modelled with `Option`.
-/

namespace DecisionEngine

/-- Python `str.lower()` (ASCII, which covers every categorical value the
engine compares against). -/
def strLower (s : String) : String := ⟨s.data.map Char.toLower⟩

/-- Python `str.upper()` (ASCII, which covers the country codes the engine
compares). -/
def strUpper (s : String) : String := ⟨s.data.map Char.toUpper⟩

def DECISION_ACCEPTED : String := "ACCEPTED"
def DECISION_IN_REVIEW : String := "IN_REVIEW"
def DECISION_REJECTED : String := "REJECTED"

/-- A transaction row, with the defaults the engine applies to absent
fields (`row.get(field, default)` in the source). -/
structure Transaction where
  chargeback_count : Int := 0
  ip_risk : String := "low"
  email_risk : String := "low"
  device_fingerprint_risk : String := "low"
  user_reputation : String := "new"
  hour : Int := 12
  bin_country : String := ""
  ip_country : String := ""
  amount_mxn : Rat := 0
  product_type : String := "_default"
  customer_txn_30d : Int := 0
  latency_ms : Int := 0
deriving Repr, DecidableEq

/-- The engine configuration (the nested `DEFAULT_CONFIG`-shaped dict). -/
structure Config where
  amount_thresholds : List (String × Rat)
  latency_ms_extreme : Int
  chargeback_hard_block : Int
  w_ip_risk : List (String × Int)
  w_email_risk : List (String × Int)
  w_device_fingerprint_risk : List (String × Int)
  w_user_reputation : List (String × Int)
  w_night_hour : Int
  w_geo_mismatch : Int
  w_high_amount : Int
  w_latency_extreme : Int
  w_new_user_high_amount : Int
  reject_at : Int
  review_at : Int
deriving Repr, DecidableEq

/-- The dict `DEFAULT_CONFIG` from the source (no environment overrides). -/
def DEFAULT_CONFIG : Config where
  amount_thresholds :=
    [("digital", 2500), ("physical", 6000), ("subscription", 1500), ("_default", 4000)]
  latency_ms_extreme := 2500
  chargeback_hard_block := 2
  w_ip_risk := [("low", 0), ("medium", 2), ("high", 4)]
  w_email_risk := [("low", 0), ("medium", 1), ("high", 3), ("new_domain", 2)]
  w_device_fingerprint_risk := [("low", 0), ("medium", 2), ("high", 4)]
  w_user_reputation := [("trusted", -2), ("recurrent", -1), ("new", 0), ("high_risk", 4)]
  w_night_hour := 1
  w_geo_mismatch := 2
  w_high_amount := 2
  w_latency_extreme := 2
  w_new_user_high_amount := 2
  reject_at := 10
  review_at := 4

/-- Python `mapping.get(value, 0)`. -/
def dictGet (m : List (String × Int)) (k : String) : Int :=
  (m.lookup k).getD 0

/-- Source function `is_night`: `hour >= 22 or hour <= 5`. -/
def is_night (hour : Int) : Bool :=
  hour ≥ 22 || hour ≤ 5

/-- Python `thresholds.get(product_type, thresholds.get("_default"))`:
`none` models the case where both keys are absent. -/
def thresholdLookup (thresholds : List (String × Rat)) (product_type : String) : Option Rat :=
  (thresholds.lookup product_type).orElse fun _ => thresholds.lookup "_default"

/-- Source function `high_amount`; `none` models the `TypeError` Python
would raise comparing a float with `None`. -/
def high_amount (amount : Rat) (product_type : String)
    (thresholds : List (String × Rat)) : Option Bool :=
  (thresholdLookup thresholds product_type).map fun t => amount ≥ t

/-- Source function `_check_hard_block`. Note the reason string is the
fixed literal of the source, with `2` hardcoded. -/
def _check_hard_block (row : Transaction) (cfg : Config) : Bool × List String :=
  let ip_risk := strLower row.ip_risk
  if row.chargeback_count ≥ cfg.chargeback_hard_block ∧ ip_risk = "high" then
    (true, ["hard_block:chargebacks>=2+ip_high"])
  else
    (false, [])

/-- One iteration of the loop in `_assess_categorical_risks`: look the
lower-cased value up in the weight mapping and emit a reason when the
points are non-zero (Python `if points:`). -/
def assessOneCategorical (field : String) (value : String)
    (mapping : List (String × Int)) : Int × List String :=
  let v := strLower value
  let points := dictGet mapping v
  if points ≠ 0 then
    (points, [field ++ ":" ++ v ++ "(+" ++ toString points ++ ")"])
  else
    (0, [])

/-- Source function `_assess_categorical_risks`: the three dimensions in
order ip_risk, email_risk, device_fingerprint_risk. -/
def _assess_categorical_risks (row : Transaction) (cfg : Config) : Int × List String :=
  let r1 := assessOneCategorical "ip_risk" row.ip_risk cfg.w_ip_risk
  let r2 := assessOneCategorical "email_risk" row.email_risk cfg.w_email_risk
  let r3 := assessOneCategorical "device_fingerprint_risk" row.device_fingerprint_risk
      cfg.w_device_fingerprint_risk
  (r1.1 + r2.1 + r3.1, r1.2 ++ r2.2 ++ r3.2)

/-- Source function `_assess_user_reputation`; the sign is printed
explicitly (`+` only for non-negative points). -/
def _assess_user_reputation (row : Transaction) (cfg : Config) : Int × List String :=
  let reputation := strLower row.user_reputation
  let points := dictGet cfg.w_user_reputation reputation
  if points ≠ 0 then
    let sign := if points ≥ 0 then "+" else ""
    (points, ["user_reputation:" ++ reputation ++ "(" ++ sign ++ toString points ++ ")"])
  else
    (points, [])

/-- Source function `_assess_temporal_risk`. -/
def _assess_temporal_risk (row : Transaction) (cfg : Config) : Int × List String :=
  if is_night row.hour then
    (cfg.w_night_hour,
      ["night_hour:" ++ toString row.hour ++ "(+" ++ toString cfg.w_night_hour ++ ")"])
  else
    (0, [])

/-- Source function `_assess_geographical_risk`: both countries upper-cased,
compared only when both are non-empty. -/
def _assess_geographical_risk (row : Transaction) (cfg : Config) : Int × List String :=
  let bin_country := strUpper row.bin_country
  let ip_country := strUpper row.ip_country
  if bin_country ≠ "" ∧ ip_country ≠ "" ∧ bin_country ≠ ip_country then
    (cfg.w_geo_mismatch,
      ["geo_mismatch:" ++ bin_country ++ "!=" ++ ip_country ++ "(+" ++
        toString cfg.w_geo_mismatch ++ ")"])
  else
    (0, [])

/-- Source function `_assess_amount_risk`: the `new_user_high_amount` bonus
is nested inside the `high_amount` branch. -/
def _assess_amount_risk (row : Transaction) (cfg : Config) : Option (Int × List String) :=
  let amount := row.amount_mxn
  let product_type := strLower row.product_type
  let reputation := strLower row.user_reputation
  match high_amount amount product_type cfg.amount_thresholds with
  | none => none
  | some false => some (0, [])
  | some true =>
    let points := cfg.w_high_amount
    let hiReason := "high_amount:" ++ product_type ++ ":" ++ toString amount ++ "(+" ++
      toString points ++ ")"
    if reputation = "new" then
      let extra := cfg.w_new_user_high_amount
      some (points + extra, [hiReason, "new_user_high_amount(+" ++ toString extra ++ ")"])
    else
      some (points, [hiReason])

/-- Source function `_assess_latency_risk`. -/
def _assess_latency_risk (row : Transaction) (cfg : Config) : Int × List String :=
  if row.latency_ms ≥ cfg.latency_ms_extreme then
    (cfg.w_latency_extreme,
      ["latency_extreme:" ++ toString row.latency_ms ++ "ms(+" ++
        toString cfg.w_latency_extreme ++ ")"])
  else
    (0, [])

/-- Source function `_apply_frequency_buffer`. -/
def _apply_frequency_buffer (row : Transaction) (score : Int) (reasons : List String) :
    Int × List String :=
  let reputation := strLower row.user_reputation
  let frequency := row.customer_txn_30d
  if (reputation = "recurrent" ∨ reputation = "trusted") ∧ frequency ≥ 3 ∧ score > 0 then
    (score - 1, reasons ++ ["frequency_buffer(-1)"])
  else
    (score, reasons)

/-- Source function `_determine_decision`: reject checked before review,
both comparisons inclusive. -/
def _determine_decision (score : Int) (cfg : Config) : String :=
  if score ≥ cfg.reject_at then DECISION_REJECTED
  else if score ≥ cfg.review_at then DECISION_IN_REVIEW
  else DECISION_ACCEPTED

/-- The body of `assess_row` before the reasons are joined with `";"`:
decision, score, and the reason list in source order (hard block first
with early return; otherwise categorical, reputation, temporal,
geographical, amount, latency, then the frequency buffer). -/
def assess_parts (row : Transaction) (cfg : Config) :
    Option (String × Int × List String) :=
  let hb := _check_hard_block row cfg
  if hb.1 then
    some (DECISION_REJECTED, 100, hb.2)
  else
    match _assess_amount_risk row cfg with
    | none => none
    | some am =>
      let a1 := _assess_categorical_risks row cfg
      let a2 := _assess_user_reputation row cfg
      let a3 := _assess_temporal_risk row cfg
      let a4 := _assess_geographical_risk row cfg
      let a6 := _assess_latency_risk row cfg
      let score := a1.1 + a2.1 + a3.1 + a4.1 + am.1 + a6.1
      let reasons := a1.2 ++ a2.2 ++ a3.2 ++ a4.2 ++ am.2 ++ a6.2
      let fb := _apply_frequency_buffer row score reasons
      some (_determine_decision fb.1 cfg, fb.1, fb.2)

/-- The dict returned by `assess_row`: decision, risk_score, and the
reasons joined with `";"`. -/
structure ScoreResult where
  decision : String
  risk_score : Int
  reasons : String
deriving Repr, DecidableEq

/-- Source function `assess_row`. -/
def assess_row (row : Transaction) (cfg : Config) : Option ScoreResult :=
  (assess_parts row cfg).map fun p => ⟨p.1, p.2.1, String.intercalate ";" p.2.2⟩

/-- Order of the three decisions, for the monotonicity statement:
ACCEPTED before IN_REVIEW before REJECTED. -/
def decisionRank (d : String) : Int :=
  if d = DECISION_ACCEPTED then 0 else if d = DECISION_IN_REVIEW then 1 else 2

/-- Spec-side definition, following the spec's description of the rules
that contribute points: the point delta of each emitting rule (the three
categorical dimensions, user reputation, night hour, geo mismatch, high
amount, the new-user bonus on top of it, latency, and the frequency
buffer), or the single sentinel contribution when hard-blocked. Reason
counting (claim C7) compares the engine's reason list against these. -/
def specContributorDeltas (row : Transaction) (cfg : Config) : Option (List Int) :=
  if (_check_hard_block row cfg).1 then some [100]
  else
    match high_amount row.amount_mxn (strLower row.product_type) cfg.amount_thresholds with
    | none => none
    | some hi =>
      let dIp := dictGet cfg.w_ip_risk (strLower row.ip_risk)
      let dEmail := dictGet cfg.w_email_risk (strLower row.email_risk)
      let dDevice := dictGet cfg.w_device_fingerprint_risk (strLower row.device_fingerprint_risk)
      let dRep := dictGet cfg.w_user_reputation (strLower row.user_reputation)
      let dNight := if is_night row.hour then cfg.w_night_hour else 0
      let dGeo := if strUpper row.bin_country ≠ "" ∧ strUpper row.ip_country ≠ "" ∧
          strUpper row.bin_country ≠ strUpper row.ip_country then cfg.w_geo_mismatch else 0
      let dHigh := if hi then cfg.w_high_amount else 0
      let dNewUser := if hi ∧ strLower row.user_reputation = "new" then
          cfg.w_new_user_high_amount else 0
      let dLat := if row.latency_ms ≥ cfg.latency_ms_extreme then cfg.w_latency_extreme else 0
      let preScore := dIp + dEmail + dDevice + dRep + dNight + dGeo + (dHigh + dNewUser) + dLat
      let dBuf := if (strLower row.user_reputation = "recurrent" ∨
          strLower row.user_reputation = "trusted") ∧ row.customer_txn_30d ≥ 3 ∧ preScore > 0 then
          (-1 : Int) else 0
      some [dIp, dEmail, dDevice, dRep, dNight, dGeo, dHigh, dNewUser, dLat, dBuf]

/-- Scenario A of the spec: a new user paying 5200 MXN for a digital
product at 23h from a medium-risk IP and a new email domain. -/
def txScenarioA : Transaction where
  amount_mxn := 5200
  product_type := "digital"
  user_reputation := "new"
  hour := 23
  ip_risk := "medium"
  email_risk := "new_domain"
  device_fingerprint_risk := "low"
  bin_country := "MX"
  ip_country := "MX"
  latency_ms := 180
  chargeback_count := 0

/-- Scenario C of the spec: a 500 MXN digital purchase with every other
field at its default. -/
def txScenarioC : Transaction where
  amount_mxn := 500
  product_type := "digital"

/-- A trusted user with no triggered risk signal: every field default
except the reputation. -/
def txTrusted : Transaction where
  user_reputation := "trusted"

/-- A transaction at 23h with every other field at its default. -/
def txNight : Transaction where
  hour := 23

/-- A transaction with three chargebacks from a high-risk IP. -/
def txChargeback3 : Transaction where
  chargeback_count := 3
  ip_risk := "high"

/-- The default configuration with the hard-block threshold raised to 3. -/
def cfgThreshold3 : Config := { DEFAULT_CONFIG with chargeback_hard_block := 3 }

/-- The default configuration with the night-hour weight set to 0. -/
def cfgNightZero : Config := { DEFAULT_CONFIG with w_night_hour := 0 }

/-- C9: under the default configuration, scenario A (amount 5200, digital,
new user, 23h, medium IP risk, new-domain email risk, low device risk,
MX/MX countries, latency 180, no chargebacks) scores exactly 9 — ip_risk
+2, email_risk +2, night_hour +1, high_amount +2, new_user_high_amount +2 —
and is decided IN_REVIEW. -/
theorem scenarioA_in_review_score_nine :
    assess_row txScenarioA DEFAULT_CONFIG =
      some ⟨DECISION_IN_REVIEW, 9,
        "ip_risk:medium(+2);email_risk:new_domain(+2);night_hour:23(+1);" ++
          "high_amount:digital:5200(+2);new_user_high_amount(+2)"⟩ := by decide

/-- C10: under the default configuration, a 500 MXN digital purchase with
every other field at its default scores exactly 0, is ACCEPTED, and its
reasons string is the empty join of the empty reason list. -/
theorem scenarioC_accepted_score_zero :
    assess_row txScenarioC DEFAULT_CONFIG = some ⟨DECISION_ACCEPTED, 0, ""⟩ := by decide

/-- C4 counterexample: the engine treats hour = 24 as night (24 ≥ 22), not
as non-night as the claim states. -/
theorem is_night_24_is_night : is_night 24 = true := by decide

/-- C3 counterexample: under the default configuration a trusted user with
no triggered risk signal is not hard-blocked, yet is assessed with risk
score -2, a negative value. -/
theorem trusted_user_scores_negative :
    assess_row txTrusted DEFAULT_CONFIG =
        some ⟨DECISION_ACCEPTED, -2, "user_reputation:trusted(-2)"⟩ ∧
      ¬ (0 : Int) ≤ -2 := by decide

/-- C2 counterexample: with the hard-block threshold configured to 3, a
blocking transaction (3 chargebacks, high IP risk) still gets the reason
literal naming 2, not one naming the configured threshold 3. -/
theorem hard_block_reason_ignores_threshold :
    _check_hard_block txChargeback3 cfgThreshold3 =
        (true, ["hard_block:chargebacks>=2+ip_high"]) ∧
      "hard_block:chargebacks>=2+ip_high" ≠ "hard_block:chargebacks>=3+ip_high" := by decide

/-- C7 counterexample: with the night-hour weight configured to 0, a
transaction at 23h yields one non-empty reason entry while no rule
contributed non-zero points. -/
theorem reason_count_mismatch_zero_weight :
    (assess_parts txNight cfgNightZero).map (fun p => p.2.2.length) = some 1 ∧
      (specContributorDeltas txNight cfgNightZero).map
        (fun l => l.countP fun x => x != 0) = some 0 := by decide

/-- Helper: an association-list lookup stays above any lower bound that
bounds both the default and every stored value. -/
theorem lookup_getD_lower_bound (lo d : Int) (m : List (String × Int)) (k : String)
    (hd : lo ≤ d) (hm : ∀ p ∈ m, lo ≤ p.2) : lo ≤ ((m.lookup k).getD d) := by
  induction m with
  | nil => simpa using hd
  | cons p t ih =>
    simp only [List.lookup]
    cases hk : k == p.1 with
    | true => simpa using hm p (List.mem_cons_self p t)
    | false => exact ih fun q hq => hm q (List.mem_cons_of_mem p hq)

/-- Helper: the hard-block check returns either the blocking pair with its
fixed reason literal or the non-blocking empty pair. -/
theorem hard_block_cases (row : Transaction) (cfg : Config) :
    _check_hard_block row cfg = (true, ["hard_block:chargebacks>=2+ip_high"]) ∨
      _check_hard_block row cfg = (false, []) := by
  unfold _check_hard_block
  dsimp only
  split_ifs <;> simp

/-- Helper: the hard-block check triggers, with its fixed reason literal,
whenever the chargeback count reaches the configured threshold and the
lower-cased ip_risk is "high". -/
theorem check_hard_block_eq_of (row : Transaction) (cfg : Config)
    (h1 : row.chargeback_count ≥ cfg.chargeback_hard_block)
    (h2 : strLower row.ip_risk = "high") :
    _check_hard_block row cfg = (true, ["hard_block:chargebacks>=2+ip_high"]) := by
  unfold _check_hard_block
  dsimp only
  exact if_pos ⟨h1, h2⟩

/-- C1: whenever the chargeback count reaches the configured hard-block
threshold and the lower-cased ip_risk is "high", assess returns REJECTED
with the fixed sentinel score 100 and the single hard-block reason,
independently of every other transaction field — no additive assessor
contributes. -/
theorem hard_block_short_circuit (row : Transaction) (cfg : Config)
    (h1 : row.chargeback_count ≥ cfg.chargeback_hard_block)
    (h2 : strLower row.ip_risk = "high") :
    assess_row row cfg =
      some ⟨DECISION_REJECTED, 100, "hard_block:chargebacks>=2+ip_high"⟩ := by
  unfold assess_row assess_parts
  rw [check_hard_block_eq_of row cfg h1 h2]
  rfl

/-- Witness for C1 at a concrete blocked transaction. -/
theorem hard_block_short_circuit_witness :
    assess_row { chargeback_count := 2, ip_risk := "HIGH" } DEFAULT_CONFIG =
      some ⟨DECISION_REJECTED, 100, "hard_block:chargebacks>=2+ip_high"⟩ :=
  hard_block_short_circuit _ _ (by decide) (by decide)

/-- C2 (amended): whenever the hard block triggers, the emitted reason is
the fixed literal naming 2, for every configuration — the reason text does
not reflect the configured threshold. -/
theorem hard_block_reason_literal (row : Transaction) (cfg : Config)
    (h1 : row.chargeback_count ≥ cfg.chargeback_hard_block)
    (h2 : strLower row.ip_risk = "high") :
    _check_hard_block row cfg = (true, ["hard_block:chargebacks>=2+ip_high"]) :=
  check_hard_block_eq_of row cfg h1 h2

/-- Witness for the amended C2, with the threshold configured to 3. -/
theorem hard_block_reason_literal_witness :
    _check_hard_block txChargeback3 cfgThreshold3 =
      (true, ["hard_block:chargebacks>=2+ip_high"]) :=
  hard_block_reason_literal _ _ (by decide) (by decide)

/-- C4 (amended): is_night is a total function on the integers; on the
in-range domain it holds exactly for the eight hours 22, 23, 0, 1, 2, 3,
4, 5, and on out-of-range hours it treats both 24 and -1 as night (any
hour at least 22 counts as night). -/
theorem is_night_range_characterization (h : Int) (hlo : 0 ≤ h) (hhi : h ≤ 23) :
    is_night 24 = true ∧ is_night (-1) = true ∧
      (is_night h = true ↔
        h = 22 ∨ h = 23 ∨ h = 0 ∨ h = 1 ∨ h = 2 ∨ h = 3 ∨ h = 4 ∨ h = 5) := by
  refine ⟨by decide, by decide, ?_⟩
  simp only [is_night, Bool.or_eq_true, decide_eq_true_eq]
  omega

/-- Witness for the amended C4 at hour 22. -/
theorem is_night_range_characterization_witness :
    is_night 24 = true ∧ is_night (-1) = true ∧
      (is_night 22 = true ↔
        (22 : Int) = 22 ∨ (22 : Int) = 23 ∨ (22 : Int) = 0 ∨ (22 : Int) = 1 ∨
          (22 : Int) = 2 ∨ (22 : Int) = 3 ∨ (22 : Int) = 4 ∨ (22 : Int) = 5) :=
  is_night_range_characterization 22 (by decide) (by decide)

/-- Helper: the rank of the decision computed from a score. -/
theorem decisionRank_determine (s : Int) (cfg : Config) :
    decisionRank (_determine_decision s cfg) =
      if s ≥ cfg.reject_at then 2 else if s ≥ cfg.review_at then 1 else 0 := by
  unfold _determine_decision
  split_ifs <;> decide

/-- C5: with reject_at above review_at, the decision is REJECTED when the
score reaches reject_at (both thresholds inclusive, reject checked first),
IN_REVIEW when it only reaches review_at, ACCEPTED below review_at, and
the decision is monotone non-decreasing in the score. -/
theorem decision_from_score_thresholds (cfg : Config) (s s1 s2 : Int)
    (hord : cfg.reject_at ≥ cfg.review_at) (h12 : s1 ≤ s2) :
    (s ≥ cfg.reject_at → _determine_decision s cfg = DECISION_REJECTED) ∧
    (¬ s ≥ cfg.reject_at → s ≥ cfg.review_at →
      _determine_decision s cfg = DECISION_IN_REVIEW) ∧
    (¬ s ≥ cfg.review_at → _determine_decision s cfg = DECISION_ACCEPTED) ∧
    decisionRank (_determine_decision s1 cfg) ≤ decisionRank (_determine_decision s2 cfg) := by
  refine ⟨fun hr => ?_, fun hnr hv => ?_, fun hnv => ?_, ?_⟩
  · unfold _determine_decision
    rw [if_pos hr]
  · unfold _determine_decision
    rw [if_neg hnr, if_pos hv]
  · unfold _determine_decision
    rw [if_neg (show ¬ s ≥ cfg.reject_at by omega), if_neg hnv]
  · rw [decisionRank_determine, decisionRank_determine]
    split_ifs <;> omega

/-- Witness for C5 at the default thresholds with scores 3 and 11. -/
theorem decision_from_score_thresholds_witness :
    ((11 : Int) ≥ DEFAULT_CONFIG.reject_at →
      _determine_decision 11 DEFAULT_CONFIG = DECISION_REJECTED) ∧
    (¬ (11 : Int) ≥ DEFAULT_CONFIG.reject_at → (11 : Int) ≥ DEFAULT_CONFIG.review_at →
      _determine_decision 11 DEFAULT_CONFIG = DECISION_IN_REVIEW) ∧
    (¬ (11 : Int) ≥ DEFAULT_CONFIG.review_at →
      _determine_decision 11 DEFAULT_CONFIG = DECISION_ACCEPTED) ∧
    decisionRank (_determine_decision 3 DEFAULT_CONFIG) ≤
      decisionRank (_determine_decision 11 DEFAULT_CONFIG) :=
  decision_from_score_thresholds DEFAULT_CONFIG 11 3 11 (by decide) (by decide)

/-- C6: the frequency buffer subtracts exactly one point and appends its
reason if and only if the lower-cased reputation is recurrent or trusted,
the 30-day transaction count is at least 3, and the pre-buffer score is
strictly positive; in particular it never fires at score at most 0 and
never for a new user. -/
theorem frequency_buffer_fires_iff (row : Transaction) (score : Int)
    (reasons : List String) :
    _apply_frequency_buffer row score reasons =
        (score - 1, reasons ++ ["frequency_buffer(-1)"]) ↔
      ((strLower row.user_reputation = "recurrent" ∨
          strLower row.user_reputation = "trusted") ∧
        row.customer_txn_30d ≥ 3 ∧ score > 0) := by
  unfold _apply_frequency_buffer
  dsimp only
  split_ifs with hc
  · simp [hc]
  · constructor
    · intro he
      rw [Prod.mk.injEq] at he
      obtain ⟨h1, -⟩ := he
      omega
    · intro h
      exact absurd h hc

/-- Helper: a successful amount assessment pins down a boolean result of
the high-amount test. -/
theorem amount_some_high (row : Transaction) (cfg : Config) (am : Int × List String)
    (ham : _assess_amount_risk row cfg = some am) :
    ∃ hi, high_amount row.amount_mxn (strLower row.product_type) cfg.amount_thresholds =
      some hi := by
  unfold _assess_amount_risk at ham
  dsimp only at ham
  cases hhi : high_amount row.amount_mxn (strLower row.product_type) cfg.amount_thresholds with
  | none =>
    rw [hhi] at ham
    simp at ham
  | some hi => exact ⟨hi, rfl⟩

/-- Helper: score and reason count of the amount assessor, in terms of the
high-amount flag and the lower-cased reputation. -/
theorem amount_parts (row : Transaction) (cfg : Config) (am : Int × List String) (hi : Bool)
    (ham : _assess_amount_risk row cfg = some am)
    (hhi : high_amount row.amount_mxn (strLower row.product_type) cfg.amount_thresholds =
      some hi) :
    am.1 = (if hi then cfg.w_high_amount else 0) +
        (if hi ∧ strLower row.user_reputation = "new" then cfg.w_new_user_high_amount
          else 0) ∧
      am.2.length =
        (if hi then (if strLower row.user_reputation = "new" then 2 else 1) else 0) := by
  unfold _assess_amount_risk at ham
  dsimp only at ham
  rw [hhi] at ham
  cases hi with
  | false =>
    simp only [Option.some.injEq] at ham
    subst ham
    simp
  | true =>
    by_cases hrep : strLower row.user_reputation = "new"
    · rw [if_pos hrep] at ham
      simp only [Option.some.injEq] at ham
      subst ham
      simp [hrep]
    · rw [if_neg hrep] at ham
      simp only [Option.some.injEq] at ham
      subst ham
      simp [hrep]

/-- C8: the amount assessor yields exactly one of three shapes — high
amount with a new user (both the high_amount and the new_user_high_amount
weights and both reasons), high amount with a non-new user (only the
high_amount weight and reason), or no high amount (zero points and no
reason); so the new_user_high_amount bonus and its reason occur only on
top of an already-triggered high-amount flag, never independently. -/
theorem new_user_bonus_only_on_high_amount (row : Transaction) (cfg : Config)
    (am : Int × List String)
    (ham : _assess_amount_risk row cfg = some am) :
    (high_amount row.amount_mxn (strLower row.product_type) cfg.amount_thresholds =
          some true ∧
        strLower row.user_reputation = "new" ∧
        am = (cfg.w_high_amount + cfg.w_new_user_high_amount,
          ["high_amount:" ++ strLower row.product_type ++ ":" ++ toString row.amount_mxn ++
              "(+" ++ toString cfg.w_high_amount ++ ")",
            "new_user_high_amount(+" ++ toString cfg.w_new_user_high_amount ++ ")"])) ∨
      (high_amount row.amount_mxn (strLower row.product_type) cfg.amount_thresholds =
          some true ∧
        ¬ strLower row.user_reputation = "new" ∧
        am = (cfg.w_high_amount,
          ["high_amount:" ++ strLower row.product_type ++ ":" ++ toString row.amount_mxn ++
              "(+" ++ toString cfg.w_high_amount ++ ")"])) ∨
      (high_amount row.amount_mxn (strLower row.product_type) cfg.amount_thresholds =
          some false ∧
        am = (0, [])) := by
  unfold _assess_amount_risk at ham
  dsimp only at ham
  obtain ⟨hi, hhi⟩ : ∃ hi,
      high_amount row.amount_mxn (strLower row.product_type) cfg.amount_thresholds =
        some hi := by
    cases hhi : high_amount row.amount_mxn (strLower row.product_type)
        cfg.amount_thresholds with
    | none =>
      rw [hhi] at ham
      simp at ham
    | some hi => exact ⟨hi, rfl⟩
  rw [hhi] at ham
  cases hi with
  | false =>
    simp only [Option.some.injEq] at ham
    subst ham
    exact Or.inr (Or.inr ⟨hhi, rfl⟩)
  | true =>
    by_cases hrep : strLower row.user_reputation = "new"
    · rw [if_pos hrep] at ham
      simp only [Option.some.injEq] at ham
      subst ham
      exact Or.inl ⟨hhi, hrep, rfl⟩
    · rw [if_neg hrep] at ham
      simp only [Option.some.injEq] at ham
      subst ham
      exact Or.inr (Or.inl ⟨hhi, hrep, rfl⟩)

/-- Witness for C8 at scenario A (high amount, new user). -/
theorem new_user_bonus_only_on_high_amount_witness :
    (high_amount txScenarioA.amount_mxn (strLower txScenarioA.product_type)
          DEFAULT_CONFIG.amount_thresholds = some true ∧
        strLower txScenarioA.user_reputation = "new" ∧
        ((4 : Int), ["high_amount:digital:5200(+2)", "new_user_high_amount(+2)"]) =
          (DEFAULT_CONFIG.w_high_amount + DEFAULT_CONFIG.w_new_user_high_amount,
            ["high_amount:" ++ strLower txScenarioA.product_type ++ ":" ++
                toString txScenarioA.amount_mxn ++ "(+" ++
                toString DEFAULT_CONFIG.w_high_amount ++ ")",
              "new_user_high_amount(+" ++ toString DEFAULT_CONFIG.w_new_user_high_amount ++
                ")"])) ∨
      (high_amount txScenarioA.amount_mxn (strLower txScenarioA.product_type)
          DEFAULT_CONFIG.amount_thresholds = some true ∧
        ¬ strLower txScenarioA.user_reputation = "new" ∧
        ((4 : Int), ["high_amount:digital:5200(+2)", "new_user_high_amount(+2)"]) =
          (DEFAULT_CONFIG.w_high_amount,
            ["high_amount:" ++ strLower txScenarioA.product_type ++ ":" ++
                toString txScenarioA.amount_mxn ++ "(+" ++
                toString DEFAULT_CONFIG.w_high_amount ++ ")"])) ∨
      (high_amount txScenarioA.amount_mxn (strLower txScenarioA.product_type)
          DEFAULT_CONFIG.amount_thresholds = some false ∧
        ((4 : Int), ["high_amount:digital:5200(+2)", "new_user_high_amount(+2)"]) =
          (0, [])) :=
  new_user_bonus_only_on_high_amount txScenarioA DEFAULT_CONFIG
    (4, ["high_amount:digital:5200(+2)", "new_user_high_amount(+2)"]) (by decide)

/-- Helper: a defaulted dictionary lookup stays above a lower bound that
bounds 0 and every stored value. -/
theorem dictGet_lower_bound (lo : Int) (m : List (String × Int)) (k : String)
    (hd : lo ≤ 0) (hm : ∀ p ∈ m, lo ≤ p.2) : lo ≤ dictGet m k :=
  lookup_getD_lower_bound lo 0 m k hd hm

/-- Helper: score and reason count of one categorical dimension. -/
theorem assessOneCategorical_parts (f v : String) (m : List (String × Int)) :
    (assessOneCategorical f v m).1 = dictGet m (strLower v) ∧
      (assessOneCategorical f v m).2.length =
        (if dictGet m (strLower v) = 0 then 0 else 1) := by
  unfold assessOneCategorical
  dsimp only
  split_ifs <;> simp_all

/-- Helper: score and reason count of the categorical assessor. -/
theorem categorical_parts (row : Transaction) (cfg : Config) :
    (_assess_categorical_risks row cfg).1 =
        dictGet cfg.w_ip_risk (strLower row.ip_risk) +
          dictGet cfg.w_email_risk (strLower row.email_risk) +
          dictGet cfg.w_device_fingerprint_risk (strLower row.device_fingerprint_risk) ∧
      (_assess_categorical_risks row cfg).2.length =
        (if dictGet cfg.w_ip_risk (strLower row.ip_risk) = 0 then 0 else 1) +
          (if dictGet cfg.w_email_risk (strLower row.email_risk) = 0 then 0 else 1) +
          (if dictGet cfg.w_device_fingerprint_risk
              (strLower row.device_fingerprint_risk) = 0 then 0 else 1) := by
  unfold _assess_categorical_risks
  dsimp only
  rw [List.length_append, List.length_append]
  rw [(assessOneCategorical_parts "ip_risk" row.ip_risk cfg.w_ip_risk).1,
    (assessOneCategorical_parts "ip_risk" row.ip_risk cfg.w_ip_risk).2,
    (assessOneCategorical_parts "email_risk" row.email_risk cfg.w_email_risk).1,
    (assessOneCategorical_parts "email_risk" row.email_risk cfg.w_email_risk).2,
    (assessOneCategorical_parts "device_fingerprint_risk" row.device_fingerprint_risk
      cfg.w_device_fingerprint_risk).1,
    (assessOneCategorical_parts "device_fingerprint_risk" row.device_fingerprint_risk
      cfg.w_device_fingerprint_risk).2]
  exact ⟨rfl, rfl⟩

/-- Helper: score and reason count of the reputation assessor. -/
theorem user_reputation_parts (row : Transaction) (cfg : Config) :
    (_assess_user_reputation row cfg).1 =
        dictGet cfg.w_user_reputation (strLower row.user_reputation) ∧
      (_assess_user_reputation row cfg).2.length =
        (if dictGet cfg.w_user_reputation (strLower row.user_reputation) = 0
          then 0 else 1) := by
  unfold _assess_user_reputation
  dsimp only
  split_ifs <;> simp_all

/-- Helper: score and reason count of the temporal assessor. -/
theorem temporal_parts (row : Transaction) (cfg : Config) :
    (_assess_temporal_risk row cfg).1 = (if is_night row.hour then cfg.w_night_hour else 0) ∧
      (_assess_temporal_risk row cfg).2.length = (if is_night row.hour then 1 else 0) := by
  unfold _assess_temporal_risk
  split_ifs <;> simp

/-- Helper: score and reason count of the geographical assessor. -/
theorem geographical_parts (row : Transaction) (cfg : Config) :
    (_assess_geographical_risk row cfg).1 =
        (if strUpper row.bin_country ≠ "" ∧ strUpper row.ip_country ≠ "" ∧
            strUpper row.bin_country ≠ strUpper row.ip_country
          then cfg.w_geo_mismatch else 0) ∧
      (_assess_geographical_risk row cfg).2.length =
        (if strUpper row.bin_country ≠ "" ∧ strUpper row.ip_country ≠ "" ∧
            strUpper row.bin_country ≠ strUpper row.ip_country then 1 else 0) := by
  unfold _assess_geographical_risk
  dsimp only
  split_ifs <;> simp

/-- Helper: score and reason count of the latency assessor. -/
theorem latency_parts (row : Transaction) (cfg : Config) :
    (_assess_latency_risk row cfg).1 =
        (if row.latency_ms ≥ cfg.latency_ms_extreme then cfg.w_latency_extreme else 0) ∧
      (_assess_latency_risk row cfg).2.length =
        (if row.latency_ms ≥ cfg.latency_ms_extreme then 1 else 0) := by
  unfold _assess_latency_risk
  split_ifs <;> simp

/-- Helper: score and reason count of the frequency buffer. -/
theorem buffer_parts (row : Transaction) (score : Int) (reasons : List String) :
    (_apply_frequency_buffer row score reasons).1 =
        (if (strLower row.user_reputation = "recurrent" ∨
              strLower row.user_reputation = "trusted") ∧
            row.customer_txn_30d ≥ 3 ∧ score > 0
          then score - 1 else score) ∧
      (_apply_frequency_buffer row score reasons).2.length =
        reasons.length +
          (if (strLower row.user_reputation = "recurrent" ∨
                strLower row.user_reputation = "trusted") ∧
              row.customer_txn_30d ≥ 3 ∧ score > 0
            then 1 else 0) := by
  unfold _apply_frequency_buffer
  dsimp only
  split_ifs <;> simp

/-- Helper: shape of assess_parts when the hard block does not trigger and
the amount assessment succeeds. -/
theorem assess_parts_not_blocked (row : Transaction) (cfg : Config)
    (am : Int × List String)
    (hb : (_check_hard_block row cfg).1 = false)
    (ham : _assess_amount_risk row cfg = some am) :
    assess_parts row cfg =
      some
        (let score := (_assess_categorical_risks row cfg).1 +
            (_assess_user_reputation row cfg).1 + (_assess_temporal_risk row cfg).1 +
            (_assess_geographical_risk row cfg).1 + am.1 + (_assess_latency_risk row cfg).1
          let reasons := (_assess_categorical_risks row cfg).2 ++
            (_assess_user_reputation row cfg).2 ++ (_assess_temporal_risk row cfg).2 ++
            (_assess_geographical_risk row cfg).2 ++ am.2 ++ (_assess_latency_risk row cfg).2
          let fb := _apply_frequency_buffer row score reasons
          (_determine_decision fb.1 cfg, fb.1, fb.2)) := by
  unfold assess_parts
  dsimp only
  rw [hb, ham]
  rfl

/-- C3 (amended): under the default configuration, every transaction that
is not hard-blocked is assessed with a risk score of at least -2 (the
score can be negative: the trusted reputation weight -2 need not be offset
by anything, and the engine does not clamp). -/
theorem nonblocked_score_at_least_neg_two (row : Transaction) (r : ScoreResult)
    (hb : (_check_hard_block row DEFAULT_CONFIG).1 = false)
    (hr : assess_row row DEFAULT_CONFIG = some r) :
    (-2 : Int) ≤ r.risk_score := by
  unfold assess_row at hr
  cases hamo : _assess_amount_risk row DEFAULT_CONFIG with
  | none =>
    rw [show assess_parts row DEFAULT_CONFIG = none by
      unfold assess_parts
      dsimp only
      rw [hb, hamo]
      rfl] at hr
    simp at hr
  | some am =>
    rw [assess_parts_not_blocked row DEFAULT_CONFIG am hb hamo] at hr
    simp only [Option.map_some', Option.some.injEq] at hr
    subst hr
    dsimp only
    rw [(buffer_parts row _ _).1]
    obtain ⟨hi, hhi⟩ := amount_some_high row DEFAULT_CONFIG am hamo
    have hcat : 0 ≤ (_assess_categorical_risks row DEFAULT_CONFIG).1 := by
      rw [(categorical_parts row DEFAULT_CONFIG).1]
      have h1 := dictGet_lower_bound 0 DEFAULT_CONFIG.w_ip_risk
        (strLower row.ip_risk) le_rfl (by decide)
      have h2 := dictGet_lower_bound 0 DEFAULT_CONFIG.w_email_risk
        (strLower row.email_risk) le_rfl (by decide)
      have h3 := dictGet_lower_bound 0 DEFAULT_CONFIG.w_device_fingerprint_risk
        (strLower row.device_fingerprint_risk) le_rfl (by decide)
      omega
    have hrep : (-2 : Int) ≤ (_assess_user_reputation row DEFAULT_CONFIG).1 := by
      rw [(user_reputation_parts row DEFAULT_CONFIG).1]
      exact dictGet_lower_bound (-2) DEFAULT_CONFIG.w_user_reputation
        (strLower row.user_reputation) (by decide) (by decide)
    have htmp : 0 ≤ (_assess_temporal_risk row DEFAULT_CONFIG).1 := by
      rw [(temporal_parts row DEFAULT_CONFIG).1]
      split_ifs <;> decide
    have hgeo : 0 ≤ (_assess_geographical_risk row DEFAULT_CONFIG).1 := by
      rw [(geographical_parts row DEFAULT_CONFIG).1]
      split_ifs <;> decide
    have hlat : 0 ≤ (_assess_latency_risk row DEFAULT_CONFIG).1 := by
      rw [(latency_parts row DEFAULT_CONFIG).1]
      split_ifs <;> decide
    have ham1 : 0 ≤ am.1 := by
      rw [(amount_parts row DEFAULT_CONFIG am hi hamo hhi).1]
      split_ifs <;> decide
    split_ifs with hc
    · have := hc.2.2
      omega
    · omega

/-- Witness for the amended C3 at the trusted-user counterexample input. -/
theorem nonblocked_score_at_least_neg_two_witness :
    (-2 : Int) ≤ (ScoreResult.mk DECISION_ACCEPTED (-2)
      "user_reputation:trusted(-2)").risk_score :=
  nonblocked_score_at_least_neg_two txTrusted
    (ScoreResult.mk DECISION_ACCEPTED (-2) "user_reputation:trusted(-2)")
    (by decide) (by decide)

/-- Helper: an append is non-empty when its left part is. -/
theorem append_ne_empty_left (a b : String) (h : a ≠ "") : a ++ b ≠ "" := by
  intro he
  apply h
  have hd := congrArg String.data he
  simp only [String.data_append] at hd
  exact String.ext (List.append_eq_nil.mp hd).1

/-- Helper: every reason of one categorical dimension is non-empty when
the field name is. -/
theorem assessOneCategorical_reasons_ne_empty (f v : String) (m : List (String × Int))
    (hf : f ≠ "") : ∀ s ∈ (assessOneCategorical f v m).2, s ≠ "" := by
  unfold assessOneCategorical
  dsimp only
  split_ifs
  · intro s hs
    simp only [List.mem_singleton] at hs
    subst hs
    exact append_ne_empty_left _ _ (append_ne_empty_left _ _ (append_ne_empty_left _ _
      (append_ne_empty_left _ _ (append_ne_empty_left _ _ hf))))
  · intro s hs
    simp at hs

/-- Helper: every reason of the categorical assessor is non-empty. -/
theorem categorical_reasons_ne_empty (row : Transaction) (cfg : Config) :
    ∀ s ∈ (_assess_categorical_risks row cfg).2, s ≠ "" := by
  unfold _assess_categorical_risks
  dsimp only
  intro s hs
  simp only [List.mem_append] at hs
  rcases hs with (hs | hs) | hs
  · exact assessOneCategorical_reasons_ne_empty _ _ _ (by decide) s hs
  · exact assessOneCategorical_reasons_ne_empty _ _ _ (by decide) s hs
  · exact assessOneCategorical_reasons_ne_empty _ _ _ (by decide) s hs

/-- Helper: every reason of the reputation assessor is non-empty. -/
theorem user_reputation_reasons_ne_empty (row : Transaction) (cfg : Config) :
    ∀ s ∈ (_assess_user_reputation row cfg).2, s ≠ "" := by
  unfold _assess_user_reputation
  dsimp only
  split_ifs <;> intro s hs <;> simp only [List.mem_singleton, List.not_mem_nil] at hs <;>
    (subst hs
     exact append_ne_empty_left _ _ (append_ne_empty_left _ _ (append_ne_empty_left _ _
       (append_ne_empty_left _ _ (append_ne_empty_left _ _ (by decide))))))

/-- Helper: every reason of the temporal assessor is non-empty. -/
theorem temporal_reasons_ne_empty (row : Transaction) (cfg : Config) :
    ∀ s ∈ (_assess_temporal_risk row cfg).2, s ≠ "" := by
  unfold _assess_temporal_risk
  split_ifs <;> intro s hs <;> simp only [List.mem_singleton, List.not_mem_nil] at hs
  subst hs
  exact append_ne_empty_left _ _ (append_ne_empty_left _ _ (append_ne_empty_left _ _
    (append_ne_empty_left _ _ (by decide))))

/-- Helper: every reason of the geographical assessor is non-empty. -/
theorem geographical_reasons_ne_empty (row : Transaction) (cfg : Config) :
    ∀ s ∈ (_assess_geographical_risk row cfg).2, s ≠ "" := by
  unfold _assess_geographical_risk
  dsimp only
  split_ifs <;> intro s hs <;> simp only [List.mem_singleton, List.not_mem_nil] at hs
  subst hs
  exact append_ne_empty_left _ _ (append_ne_empty_left _ _ (append_ne_empty_left _ _
    (append_ne_empty_left _ _ (append_ne_empty_left _ _
      (append_ne_empty_left _ _ (by decide))))))

/-- Helper: every reason of the latency assessor is non-empty. -/
theorem latency_reasons_ne_empty (row : Transaction) (cfg : Config) :
    ∀ s ∈ (_assess_latency_risk row cfg).2, s ≠ "" := by
  unfold _assess_latency_risk
  split_ifs <;> intro s hs <;> simp only [List.mem_singleton, List.not_mem_nil] at hs
  subst hs
  exact append_ne_empty_left _ _ (append_ne_empty_left _ _ (append_ne_empty_left _ _
    (append_ne_empty_left _ _ (by decide))))

/-- Helper: every reason of the amount assessor is non-empty. -/
theorem amount_reasons_ne_empty (row : Transaction) (cfg : Config) (am : Int × List String)
    (ham : _assess_amount_risk row cfg = some am) : ∀ s ∈ am.2, s ≠ "" := by
  unfold _assess_amount_risk at ham
  dsimp only at ham
  cases hhi : high_amount row.amount_mxn (strLower row.product_type) cfg.amount_thresholds with
  | none =>
    rw [hhi] at ham
    simp at ham
  | some hi =>
    rw [hhi] at ham
    cases hi with
    | false =>
      simp only [Option.some.injEq] at ham
      subst ham
      intro s hs
      simp at hs
    | true =>
      split_ifs at ham <;> simp only [Option.some.injEq] at ham <;> subst ham <;>
          intro s hs <;>
          simp only [List.mem_cons, List.mem_singleton, List.not_mem_nil, or_false] at hs
      · rcases hs with hs | hs <;> subst hs
        · exact append_ne_empty_left _ _ (append_ne_empty_left _ _ (append_ne_empty_left _ _
            (append_ne_empty_left _ _ (append_ne_empty_left _ _
              (append_ne_empty_left _ _ (by decide))))))
        · exact append_ne_empty_left _ _ (append_ne_empty_left _ _ (by decide))
      · subst hs
        exact append_ne_empty_left _ _ (append_ne_empty_left _ _ (append_ne_empty_left _ _
          (append_ne_empty_left _ _ (append_ne_empty_left _ _
            (append_ne_empty_left _ _ (by decide))))))

/-- Helper: indicator normalization for non-zero tests. -/
theorem ind_ne_zero (d : Int) :
    (if d ≠ 0 then (1 : Nat) else 0) = if d = 0 then 0 else 1 := by
  split_ifs <;> simp_all

/-- Helper: indicator of a flag-gated weight, for a non-zero weight. -/
theorem ind_flag (c : Prop) [Decidable c] (w : Int) (hw : w ≠ 0) :
    (if (if c then w else 0) = 0 then (0 : Nat) else 1) = if c then 1 else 0 := by
  split_ifs <;> simp_all

/-- Helper: every reason after the frequency buffer is an original reason
or the buffer literal. -/
theorem buffer_reasons_mem (row : Transaction) (score : Int) (reasons : List String) :
    ∀ s ∈ (_apply_frequency_buffer row score reasons).2,
      s ∈ reasons ∨ s = "frequency_buffer(-1)" := by
  unfold _apply_frequency_buffer
  dsimp only
  split_ifs <;> intro s hs
  · simp only [List.mem_append, List.mem_singleton] at hs
    exact hs
  · exact Or.inl hs

/-- C7 (amended): for every transaction and every configuration whose flat
weights (night_hour, geo_mismatch, high_amount, new_user_high_amount,
latency_extreme) are non-zero — the default configuration among them — the
reason entries of the assessment are all non-empty and their number equals
the number of rules (categorical dimensions, reputation, night hour, geo
mismatch, high amount, new-user bonus, latency, frequency buffer, hard
block) that contributed non-zero points. -/
theorem reason_count_equals_nonzero_contributors (row : Transaction) (cfg : Config)
    (p : String × Int × List String) (l : List Int)
    (hnight : cfg.w_night_hour ≠ 0) (hgeo : cfg.w_geo_mismatch ≠ 0)
    (hhigh : cfg.w_high_amount ≠ 0) (hnew : cfg.w_new_user_high_amount ≠ 0)
    (hlat : cfg.w_latency_extreme ≠ 0)
    (hp : assess_parts row cfg = some p)
    (hl : specContributorDeltas row cfg = some l) :
    p.2.2.length = l.countP (fun x => x != 0) ∧ ∀ s ∈ p.2.2, s ≠ "" := by
  rcases hard_block_cases row cfg with hcb | hcb
  · have hps : assess_parts row cfg =
        some (DECISION_REJECTED, 100, ["hard_block:chargebacks>=2+ip_high"]) := by
      unfold assess_parts
      dsimp only
      rw [hcb]
      rfl
    have hls : specContributorDeltas row cfg = some [100] := by
      unfold specContributorDeltas
      rw [hcb]
      rfl
    rw [hps] at hp
    rw [hls] at hl
    simp only [Option.some.injEq] at hp hl
    subst hp
    subst hl
    refine ⟨by decide, ?_⟩
    intro s hs
    simp only [List.mem_singleton] at hs
    subst hs
    decide
  · have hb : (_check_hard_block row cfg).1 = false := by rw [hcb]
    cases hamo : _assess_amount_risk row cfg with
    | none =>
      rw [show assess_parts row cfg = none from by
        unfold assess_parts
        dsimp only
        rw [hb, hamo]
        rfl] at hp
      cases hp
    | some am =>
      obtain ⟨hi, hhi⟩ := amount_some_high row cfg am hamo
      rw [assess_parts_not_blocked row cfg am hb hamo] at hp
      simp only [Option.some.injEq] at hp
      subst hp
      have hls : specContributorDeltas row cfg = some
          [dictGet cfg.w_ip_risk (strLower row.ip_risk),
            dictGet cfg.w_email_risk (strLower row.email_risk),
            dictGet cfg.w_device_fingerprint_risk (strLower row.device_fingerprint_risk),
            dictGet cfg.w_user_reputation (strLower row.user_reputation),
            if is_night row.hour then cfg.w_night_hour else 0,
            if strUpper row.bin_country ≠ "" ∧ strUpper row.ip_country ≠ "" ∧
                strUpper row.bin_country ≠ strUpper row.ip_country
              then cfg.w_geo_mismatch else 0,
            if hi then cfg.w_high_amount else 0,
            if hi ∧ strLower row.user_reputation = "new"
              then cfg.w_new_user_high_amount else 0,
            if row.latency_ms ≥ cfg.latency_ms_extreme then cfg.w_latency_extreme else 0,
            if (strLower row.user_reputation = "recurrent" ∨
                  strLower row.user_reputation = "trusted") ∧
                row.customer_txn_30d ≥ 3 ∧
                dictGet cfg.w_ip_risk (strLower row.ip_risk) +
                      dictGet cfg.w_email_risk (strLower row.email_risk) +
                      dictGet cfg.w_device_fingerprint_risk
                        (strLower row.device_fingerprint_risk) +
                      dictGet cfg.w_user_reputation (strLower row.user_reputation) +
                      (if is_night row.hour then cfg.w_night_hour else 0) +
                      (if strUpper row.bin_country ≠ "" ∧ strUpper row.ip_country ≠ "" ∧
                          strUpper row.bin_country ≠ strUpper row.ip_country
                        then cfg.w_geo_mismatch else 0) +
                      ((if hi then cfg.w_high_amount else 0) +
                        (if hi ∧ strLower row.user_reputation = "new"
                          then cfg.w_new_user_high_amount else 0)) +
                      (if row.latency_ms ≥ cfg.latency_ms_extreme
                        then cfg.w_latency_extreme else 0) > 0
              then (-1 : Int) else 0] := by
        unfold specContributorDeltas
        rw [hb, hhi]
        rfl
      rw [hls] at hl
      simp only [Option.some.injEq] at hl
      subst hl
      dsimp only
      have hR : ∀ s ∈ (_assess_categorical_risks row cfg).2 ++
          (_assess_user_reputation row cfg).2 ++ (_assess_temporal_risk row cfg).2 ++
          (_assess_geographical_risk row cfg).2 ++ am.2 ++
          (_assess_latency_risk row cfg).2, s ≠ "" := by
        intro s hs
        simp only [List.mem_append] at hs
        rcases hs with ((((hs | hs) | hs) | hs) | hs) | hs
        · exact categorical_reasons_ne_empty row cfg s hs
        · exact user_reputation_reasons_ne_empty row cfg s hs
        · exact temporal_reasons_ne_empty row cfg s hs
        · exact geographical_reasons_ne_empty row cfg s hs
        · exact amount_reasons_ne_empty row cfg am hamo s hs
        · exact latency_reasons_ne_empty row cfg s hs
      constructor
      · rw [(buffer_parts row _ _).2]
        rw [List.length_append, List.length_append, List.length_append,
          List.length_append, List.length_append]
        rw [(categorical_parts row cfg).1, (categorical_parts row cfg).2,
          (user_reputation_parts row cfg).1, (user_reputation_parts row cfg).2,
          (temporal_parts row cfg).1, (temporal_parts row cfg).2,
          (geographical_parts row cfg).1, (geographical_parts row cfg).2,
          (amount_parts row cfg am hi hamo hhi).1, (amount_parts row cfg am hi hamo hhi).2,
          (latency_parts row cfg).1, (latency_parts row cfg).2]
        simp only [List.countP_cons, List.countP_nil, bne_iff_ne, ind_ne_zero]
        rw [ind_flag (is_night row.hour = true) cfg.w_night_hour hnight,
          ind_flag (strUpper row.bin_country ≠ "" ∧ strUpper row.ip_country ≠ "" ∧
            strUpper row.bin_country ≠ strUpper row.ip_country) cfg.w_geo_mismatch hgeo,
          ind_flag (hi = true) cfg.w_high_amount hhigh,
          ind_flag (hi = true ∧ strLower row.user_reputation = "new")
            cfg.w_new_user_high_amount hnew,
          ind_flag (row.latency_ms ≥ cfg.latency_ms_extreme) cfg.w_latency_extreme hlat,
          ind_flag _ (-1 : Int) (by decide)]
        cases hi with
        | false =>
          simp
          omega
        | true =>
          by_cases hN : strLower row.user_reputation = "new"
          · simp [hN]
            omega
          · simp [hN]
            omega
      · intro s hs
        rcases buffer_reasons_mem row _ _ s hs with hs | hs
        · exact hR s hs
        · subst hs
          decide

/-- Witness for the amended C7: a night transaction under the default
configuration has exactly one reason entry and one non-zero contributor. -/
theorem reason_count_equals_nonzero_contributors_witness :
    ((DECISION_ACCEPTED, (1 : Int), ["night_hour:23(+1)"]) :
        String × Int × List String).2.2.length =
        List.countP (fun x => x != 0)
          ([0, 0, 0, 0, 1, 0, 0, 0, 0, 0] : List Int) ∧
      ∀ s ∈ ((DECISION_ACCEPTED, (1 : Int), ["night_hour:23(+1)"]) :
        String × Int × List String).2.2, s ≠ "" :=
  reason_count_equals_nonzero_contributors txNight DEFAULT_CONFIG
    (DECISION_ACCEPTED, 1, ["night_hour:23(+1)"]) [0, 0, 0, 0, 1, 0, 0, 0, 0, 0]
    (by decide) (by decide) (by decide) (by decide) (by decide) (by decide) (by decide)

end DecisionEngine
